import Mathlib

/-!
Shallow embedding of the bible-companion-bot session controller
(`src/bot.py`) together with the parts of the document-store adapter
(`src/drive_manager.py`) and the generative-provider adapter
(`src/ai_agent.py`) that the controller consumes.

Conventions of the embedding:
* Python strings are Lean `String`s; the Python substring test `a in b`
  is `pyIn a b`, and `str.lower()` is `pyLower` (ASCII case fold, which
  is all the source ever matches on).
* Each Telegram handler becomes a pure function from an environment
  record (the responses the adapters give to the calls the handler
  issues, in source order) to a result record that carries the replies
  sent, the store writes attempted, the cached session data and the
  next conversation state.  A Python exception escaping the handler is
  an `Except.error` outcome.
* `bot.py` invokes the store through `read_yaml_file`/`write_yaml_file`;
  their semantics here follow the adapter's document read/write pair
  (`read_md_file`/`write_md_file`): reads swallow failures and yield
  nothing, writes re-raise.  The fact that `GoogleDriveManager` defines
  these operations under different names than `bot.py` uses is treated
  separately (`botDriveMethodCalls` below).
-/

set_option maxRecDepth 16384

namespace BibleBot

/-- Python substring containment `needle in hay` on strings. -/
def pyIn (needle hay : String) : Bool := decide (needle.data <:+: hay.data)

/-- Python `str.lower()` (ASCII case fold; the source only matches ASCII
patterns against the lowered text). -/
def pyLower (s : String) : String := ⟨s.data.map Char.toLower⟩

/-- Python `str.strip()`: drop whitespace from both ends. -/
def pyStrip (s : String) : String :=
  ⟨((s.data.dropWhile Char.isWhitespace).reverse.dropWhile Char.isWhitespace).reverse⟩

/-- Number of positions at which `needle` starts inside the character list. -/
def countOcc (needle : List Char) : List Char → Nat
  | [] => 0
  | c :: rest => (if needle.isPrefixOf (c :: rest) then 1 else 0) + countOcc needle rest

theorem pyIn_eq_true_iff {n hay : String} : pyIn n hay = true ↔ n.data <:+: hay.data :=
  decide_eq_true_iff

theorem infixAppendRight {α : Type} {l a : List α} (b : List α) (h : l <:+: a) :
    l <:+: a ++ b := by
  rcases h with ⟨s, t, rfl⟩
  exact ⟨s, t ++ b, by simp⟩

theorem infixAppendLeft {α : Type} {l b : List α} (a : List α) (h : l <:+: b) :
    l <:+: a ++ b := by
  rcases h with ⟨s, t, rfl⟩
  exact ⟨a ++ s, t, by simp⟩

theorem pyIn_append_of_left {n a : String} (b : String) (h : pyIn n a = true) :
    pyIn n (a ++ b) = true := by
  rw [pyIn_eq_true_iff] at h ⊢
  rw [String.data_append]
  exact infixAppendRight b.data h

theorem pyIn_append_of_right {n b : String} (a : String) (h : pyIn n b = true) :
    pyIn n (a ++ b) = true := by
  rw [pyIn_eq_true_iff] at h ⊢
  rw [String.data_append]
  exact infixAppendLeft a.data h

theorem pyIn_left_self (a b : String) : pyIn a (a ++ b) = true := by
  rw [pyIn_eq_true_iff, String.data_append]
  exact ⟨[], b.data, rfl⟩

theorem pyIn_right_self (a b : String) : pyIn b (a ++ b) = true := by
  rw [pyIn_eq_true_iff, String.data_append]
  exact ⟨a.data, [], by simp⟩

/-- View of `Except` as a sum, to decide equality of handler outcomes. -/
def exceptToSum {ε α : Type} : Except ε α → ε ⊕ α
  | .error e => .inl e
  | .ok a => .inr a

instance {ε α : Type} [DecidableEq ε] [DecidableEq α] : DecidableEq (Except ε α) := fun a b =>
  decidable_of_iff (exceptToSum a = exceptToSum b) (by cases a <;> cases b <;> simp [exceptToSum])

/-- The conversation states of `bot.py` (the `range(10)` tuple), plus
`ConversationHandler.END` as `ENDED`. -/
inductive ChatState
  | DRIVE_SETUP
  | ONBOARDING_LANGUAGE
  | ONBOARDING_TRANSLATION
  | ONBOARDING_DENOMINATION
  | ONBOARDING_STYLE
  | ONBOARDING_PACING
  | ONBOARDING_ORDERING
  | IDLE
  | READING
  | DISCUSSION
  | ENDED
deriving DecidableEq, Repr

/-- One chat-history entry as `discussion_handler` builds it. -/
structure Turn where
  role : String
  parts : List String
deriving DecidableEq, Repr

/-- The profile document: the six onboarding fields plus the day counter.
`current_day` is optional because the handlers read it with
`profile.get('current_day', 1)`. -/
structure Profile where
  language : String
  translation : String
  denomination : String
  style : String
  pacing : String
  ordering : String
  current_day : Option Nat
deriving DecidableEq, Repr

/-- Python's `str(profile)` for the dict built at onboarding (key insertion
order); an absent `current_day` is rendered as `None`.  No claim inspects
this text, it only feeds prompt construction. -/
def pyStrProfile (p : Profile) : String :=
  "\x7b'language': '" ++ p.language ++ "', 'translation': '" ++ p.translation ++
  "', 'denomination': '" ++ p.denomination ++ "', 'style': '" ++ p.style ++
  "', 'pacing': '" ++ p.pacing ++ "', 'ordering': '" ++ p.ordering ++
  "', 'current_day': " ++ (match p.current_day with | some n => toString n | none => "None") ++ "\x7d"

/-- The reading-plan document (`generated_at`, `plan`). A missing or falsy
`plan` entry is modelled as the empty string. -/
structure PlanDoc where
  generated_at : String
  plan : String
deriving DecidableEq, Repr

/-- The chat-history document; `history` is `none` when the stored mapping
has no `history` key. -/
structure ChatDoc where
  created : String
  history : Option (List Turn)
deriving DecidableEq, Repr

/-- Payload of a store write, by document kind (`test` is the throwaway
`bot_test_permission.yaml` probe payload). -/
inductive DocData
  | profile (p : Profile)
  | plan (d : PlanDoc)
  | chat (c : ChatDoc)
  | test
deriving DecidableEq, Repr

/-- One `write_yaml_file(folder_id, name, data, file_id=...)` call as the
controller issues it: the optional existing id is the upsert key; there is
no concurrency token. -/
structure WriteOp where
  folder : Option String
  name : String
  data : DocData
  fileId : Option String
deriving DecidableEq, Repr

/-- A Python exception escaping a handler: `typeError` for subscripting
`None`, `storeError` for an exception re-raised out of a store write. -/
inductive PyErr
  | typeError
  | storeError (msg : String)
deriving DecidableEq, Repr

/-- A file entry as the Drive listing returns it. -/
structure DriveFile where
  id : String
  name : String
deriving DecidableEq, Repr

/-- `GoogleDriveManager.list_files_in_folder`: the adapter catches every
backend exception and returns the empty listing instead. -/
def list_files_in_folder (backend : Except String (List DriveFile)) : List DriveFile :=
  match backend with
  | .ok files => files
  | .error _ => []

/-- `GeminiAgent.generate_response`: with no client configured it returns
the fixed sentinel; a raising backend call is caught and mapped to the
fixed fallback text.  It never raises. -/
def generate_response (clientPresent : Bool) (backend : Except String String) : String :=
  if !clientPresent then "AI Service Unavailable (Missing API Key)."
  else
    match backend with
    | .ok t => t
    | .error _ => "I'm having trouble connecting to my knowledge base right now."

/-- Reply text of the store-link handler when the listing call raises
(`drive_setup_handler`, the `except` branch around `list_files_in_folder`). -/
def couldNotAccessMsg (e : String) : String :=
  "Could not access that folder. Error: " ++ e ++
  "\n\nPlease make sure the folder is shared with the service account email."

/-- Reply when a populated profile document is found. -/
def welcomeBackMsg : String :=
  "I found an existing profile in this folder! Welcome back.\n\nType /read to continue your journey."

/-- Reply when the profile document exists but is empty (pre-created placeholder). -/
def emptyProfileMsg : String :=
  "Access confirmed! I see your empty profile.yaml.\n" ++
  "I am your personal Bible Reading Companion, designed to help you read and understand the scriptures.\n\n" ++
  "To create a customized reading plan for you, I need to ask a few questions.\n\n" ++
  "First, what is your preferred language?"

/-- Reply after a successful write-capability probe. -/
def accessConfirmedMsg : String :=
  "Access confirmed!\n" ++
  "I am your personal Bible Reading Companion, designed to help you read and understand the scriptures.\n\n" ++
  "To create a customized reading plan for you, I need to ask a few questions.\n\n" ++
  "First, what is your preferred language?"

/-- The guided remediation sent when the probe failure matches the quota
pattern; it names the three placeholder documents to pre-create. -/
def quotaActionMsg : String :=
  "**Action Required:**\n" ++
  "I cannot create new files in this folder because of Google's Service Account restrictions on Personal Drives.\n\n" ++
  "Please manually create these **empty files** inside your folder:\n" ++
  "1. `profile.yaml`\n2. `reading_plan.yaml`\n3. `chat_history.yaml`\n\n" ++
  "After you have created them, paste the **Folder ID** again."

/-- Adapter responses to the calls `drive_setup_handler` issues, in source
order.  `listBackend` is the raw backend outcome of the Drive list request
(the adapter swallows its errors); `profileDoc` is what reading the profile
document yields, `none` standing for the falsy cases (unreadable document or
empty placeholder); `probeWrite` is the outcome of writing
`bot_test_permission.yaml` (`error` = the write raised). -/
structure SetupEnv where
  listBackend : Except String (List DriveFile)
  profileFileId : Option String
  profileDoc : Option Profile
  probeWrite : Except String (Option String)
deriving Repr

/-- What the store-link handler did: replies sent, returned conversation
state, the folder id cached into `user_data` (if reached), the store writes
attempted and the file ids deleted. -/
structure SetupOutcome where
  replies : List String
  next : ChatState
  savedFolder : Option String
  writes : List WriteOp
  deletes : List String
deriving DecidableEq, Repr

/-- `drive_setup_handler` with the listing call's outcome made explicit
(`listCall` is what the `try` block observes: an `error` is an exception
raised by the call, caught by the handler's `except`). -/
def drive_setup_core (listCall : Except String (List DriveFile)) (env : SetupEnv)
    (text : String) : SetupOutcome :=
  let folder_id := pyStrip text
  match listCall with
  | .error e =>
    { replies := [couldNotAccessMsg e], next := .DRIVE_SETUP, savedFolder := none,
      writes := [], deletes := [] }
  | .ok _files =>
    match env.profileFileId with
    | some _pid =>
      match env.profileDoc with
      | some _p =>
        { replies := [welcomeBackMsg], next := .IDLE, savedFolder := some folder_id,
          writes := [], deletes := [] }
      | none =>
        { replies := [emptyProfileMsg], next := .ONBOARDING_LANGUAGE,
          savedFolder := some folder_id, writes := [], deletes := [] }
    | none =>
      let probe : WriteOp := ⟨some folder_id, "bot_test_permission.yaml", .test, none⟩
      match env.probeWrite with
      | .ok testId =>
        { replies := [accessConfirmedMsg], next := .ONBOARDING_LANGUAGE,
          savedFolder := some folder_id, writes := [probe],
          deletes := match testId with | some tid => [tid] | none => [] }
      | .error e =>
        let err_str := pyLower e
        if pyIn "quota" err_str || pyIn "service accounts do not have storage" err_str then
          { replies := [quotaActionMsg], next := .DRIVE_SETUP,
            savedFolder := some folder_id, writes := [probe], deletes := [] }
        else
          { replies := ["Error checking write permissions: " ++ e], next := .DRIVE_SETUP,
            savedFolder := some folder_id, writes := [probe], deletes := [] }

/-- The store-link handler as deployed: its listing call goes through the
adapter `list_files_in_folder`, which never raises. -/
def drive_setup_handler (env : SetupEnv) (text : String) : SetupOutcome :=
  drive_setup_core (.ok (list_files_in_folder env.listBackend)) env text

/-- Adapter responses to the calls `done_command` issues: the profile
lookup, the profile read (`none` = document missing or unreadable, i.e. the
read yielded nothing) and the profile write (`error` = the write raised). -/
structure DoneEnv where
  folderId : Option String
  profileFileId : Option String
  profileDoc : Option Profile
  profileWrite : Except String String
deriving Repr

/-- Result of a completed `done_command`: replies, next state, the profile
write issued and the reset in-memory chat history. -/
structure DoneOutcome where
  replies : List String
  next : ChatState
  writes : List WriteOp
  newChatCache : List Turn
deriving DecidableEq, Repr

/-- `done_command` (`bot.py` 328-346).  The handler has no `try`/`except`:
subscript-assigning `profile['current_day']` when the read yielded nothing
raises `TypeError`, and a raising profile write propagates; either way the
exception escapes the handler (`Except.error`). -/
def done_command (env : DoneEnv) : Except PyErr DoneOutcome :=
  match env.profileDoc with
  | none => .error .typeError
  | some p =>
    let p1 : Profile := { p with current_day := some (p.current_day.getD 1 + 1) }
    match env.profileWrite with
    | .error e => .error (.storeError e)
    | .ok _ =>
      .ok { replies := ["Great job! What stood out to you in today's reading? Let's talk about it."],
            next := .DISCUSSION,
            writes := [⟨env.folderId, "profile.yaml", .profile p1, env.profileFileId⟩],
            newChatCache := [] }

/-- Adapter responses to the calls `discussion_handler` issues: the cached
session history, the chat-history document lookup and read, the generation
result and the chat write outcome. -/
structure DiscussEnv where
  folderId : Option String
  cachedHistory : Option (List Turn)
  chatFileId : Option String
  chatDoc : Option ChatDoc
  aiResponse : String
  chatWrite : Except String String
deriving Repr

/-- History resolution of `discussion_handler` (`bot.py` 355-367): the
in-memory cache if present, else the stored document's `history` entry if
the document exists and is readable, else the empty history. -/
def resolveHistory (env : DiscussEnv) : List Turn :=
  match env.cachedHistory with
  | some h => h
  | none =>
    match env.chatFileId with
    | some _ =>
      match env.chatDoc with
      | some d => d.history.getD []
      | none => []
    | none => []

/-- The window cap of `discussion_handler` (`bot.py` 380-381):
`if len(history) > 10: history = history[-10:]`. -/
def truncate10 (l : List Turn) : List Turn :=
  if l.length > 10 then l.drop (l.length - 10) else l

/-- What `discussion_handler` did.  `newCache` is the value stored into
`user_data['chat_history']`; it is set before the chat write, so it stands
even when the write raises.  `outcome` is the reply plus next state, or the
escaped exception. -/
structure DiscussResult where
  usedHistory : List Turn
  newCache : List Turn
  writeAttempt : WriteOp
  outcome : Except PyErr (List String × ChatState)
deriving DecidableEq, Repr

/-- `discussion_handler` (`bot.py` 348-395): resolve the history, generate
with it, append the user turn then the model turn, cap the window at 10,
cache it, then persist `chat_history.yaml` by read-modify-write at the
already-resolved id (the write carries no concurrency token). -/
def discussion_handler (env : DiscussEnv) (userInput : String) : DiscussResult :=
  let history := resolveHistory env
  let history2 := truncate10 (history ++ [⟨"user", [userInput]⟩, ⟨"model", [env.aiResponse]⟩])
  { usedHistory := history
    newCache := history2
    writeAttempt := ⟨env.folderId, "chat_history.yaml",
      .chat ⟨if env.chatFileId.isNone then "now" else "existing", some history2⟩,
      env.chatFileId⟩
    outcome :=
      match env.chatWrite with
      | .error e => .error (.storeError e)
      | .ok _ => .ok ([env.aiResponse], .DISCUSSION) }

/-- The terminal reply of the read flow when the plan document is missing
or its body is empty. -/
def planSupportMsg : String :=
  "Error: Reading plan is empty or missing. Please contact support or restart."

/-- The plan-extension prompt of `read_command` (`bot.py` 292-297). -/
def extensionPrompt (d : Nat) (profileStr : String) : String :=
  "The user is on Day " ++ toString d ++
  ". Generate a daily Bible reading plan for Day " ++ toString d ++
  " to Day " ++ toString (d + 6) ++
  ". Context/Preferences: " ++ profileStr ++
  "\nFormat the output as a Markdown list with 'Day X: Book Chapter:Verse'."

/-- The reference-extraction prompt of `read_command` (`bot.py` 312). -/
def extractionPrompt (plan_body : String) (d : Nat) : String :=
  "From this plan:\n" ++ plan_body ++
  "\n\nWhat is the reading for Day " ++ toString d ++ "? Return ONLY the Bible reference."

/-- The label test of `read_command` (`bot.py` 288): the plan covers `d`
when the body contains `Day d:` or `Day d ` literally. -/
def coversDay (plan_body : String) (d : Nat) : Bool :=
  pyIn ("Day " ++ toString d ++ ":") plan_body || pyIn ("Day " ++ toString d ++ " ") plan_body

/-- Adapter responses to the calls `read_command` issues, in source order.
`planDoc = none` stands for a missing plan document or an unreadable one
(the lookup result is passed straight to the read, which swallows failures);
`extensionResponse` and `extractionResponse` are the generation results for
the two prompts; `planWrite` is the plan upsert outcome. -/
structure ReadEnv where
  folderId : Option String
  profileFileId : Option String
  profileDoc : Option Profile
  planFileId : Option String
  planDoc : Option PlanDoc
  extensionResponse : String
  planWrite : Except String String
  extractionResponse : String
  bibleText : String
deriving Repr

/-- What `read_command` did: replies sent before any raise, the extension
and extraction prompts issued, the scripture fetches, the plan writes
attempted, the cached reference and scripture, and the outcome. -/
structure ReadResult where
  replies : List String
  extensionCalls : List String
  extractionCalls : List String
  bibleCalls : List (String × String)
  planWrites : List WriteOp
  savedRef : Option String
  savedScripture : Option String
  outcome : Except PyErr ChatState
deriving DecidableEq, Repr

/-- The tail of `read_command` after the day-coverage step (`bot.py`
310-326): extract the reference from the (possibly extended) plan body,
fetch the scripture, cache both and reply; nothing validates the extraction
result. -/
def read_finish (env : ReadEnv) (p : Profile) (d : Nat) (plan_body : String)
    (pre_replies : List String) (ext_calls : List String) (writes : List WriteOp) :
    ReadResult :=
  let reading_ref := pyStrip env.extractionResponse
  let scripture := env.bibleText
  { replies := pre_replies ++
      ["**Day " ++ toString d ++ ": " ++ reading_ref ++ "**\n\n" ++ scripture ++
       "\n\nWhen you are finished reading, type /done."]
    extensionCalls := ext_calls
    extractionCalls := [extractionPrompt plan_body d]
    bibleCalls := [(reading_ref, p.translation)]
    planWrites := writes
    savedRef := some reading_ref
    savedScripture := some scripture
    outcome := .ok .READING }

/-- `read_command` (`bot.py` 252-326). -/
def read_command (env : ReadEnv) : ReadResult :=
  match env.folderId with
  | none =>
    { replies := ["Please run /start to set up your profile first."],
      extensionCalls := [], extractionCalls := [], bibleCalls := [], planWrites := [],
      savedRef := none, savedScripture := none, outcome := .ok .ENDED }
  | some folder_id =>
    match env.profileFileId with
    | none =>
      { replies := ["Profile not found. Please run /start."],
        extensionCalls := [], extractionCalls := [], bibleCalls := [], planWrites := [],
        savedRef := none, savedScripture := none, outcome := .ok .ENDED }
    | some _file_id =>
      match env.profileDoc with
      | none =>
        { replies := ["Error reading profile. Please try again."],
          extensionCalls := [], extractionCalls := [], bibleCalls := [], planWrites := [],
          savedRef := none, savedScripture := none, outcome := .ok .ENDED }
      | some profile =>
        let current_day := profile.current_day.getD 1
        match env.planDoc with
        | none =>
          { replies := [planSupportMsg],
            extensionCalls := [], extractionCalls := [], bibleCalls := [], planWrites := [],
            savedRef := none, savedScripture := none, outcome := .ok .ENDED }
        | some plan_data =>
          if plan_data.plan = "" then
            { replies := [planSupportMsg],
              extensionCalls := [], extractionCalls := [], bibleCalls := [], planWrites := [],
              savedRef := none, savedScripture := none, outcome := .ok .ENDED }
          else
            let plan_body := plan_data.plan
            if coversDay plan_body current_day then
              read_finish env profile current_day plan_body [] [] []
            else
              let ext_prompt := extensionPrompt current_day (pyStrProfile profile)
              let new_plan_part := env.extensionResponse
              let plan_body2 := plan_body ++ "\n\n" ++ new_plan_part
              let planW : WriteOp := ⟨some folder_id, "reading_plan.yaml",
                .plan { plan_data with plan := plan_body2 }, env.planFileId⟩
              let ended_reply :=
                "Your current reading plan has ended. Generating the next part of your plan..."
              match env.planWrite with
              | .error e =>
                { replies := [ended_reply],
                  extensionCalls := [ext_prompt], extractionCalls := [], bibleCalls := [],
                  planWrites := [planW], savedRef := none, savedScripture := none,
                  outcome := .error (.storeError e) }
              | .ok _ =>
                read_finish env profile current_day plan_body2 [ended_reply] [ext_prompt] [planW]

/-- Adapter responses to the calls `onboarding_ordering` issues: the five
answers already collected, the folder id, the profile write outcome, the
plan-generation result and the plan write outcome. -/
structure OnboardEnv where
  language : String
  translation : String
  denomination : String
  style : String
  pacing : String
  folderId : String
  profileWrite : Except String String
  planResponse : String
  planWrite : Except String String
deriving Repr

/-- What `onboarding_ordering` did. -/
structure OnboardResult where
  replies : List String
  writes : List WriteOp
  outcome : Except PyErr ChatState
deriving DecidableEq, Repr

/-- `onboarding_ordering` (`bot.py` 208-250): build the profile from the
six answers plus `current_day = 1`, upsert `profile.yaml` (no resolved id:
lookup-by-name-then-create), generate the initial plan from `str(profile)`,
upsert `reading_plan.yaml`, and go Idle.  Both writes are unguarded, so a
raising write escapes the handler. -/
def onboarding_ordering (env : OnboardEnv) (text : String) : OnboardResult :=
  let profile_data : Profile :=
    ⟨env.language, env.translation, env.denomination, env.style, env.pacing, text, some 1⟩
  let profileW : WriteOp := ⟨some env.folderId, "profile.yaml", .profile profile_data, none⟩
  match env.profileWrite with
  | .error e => { replies := [], writes := [profileW], outcome := .error (.storeError e) }
  | .ok _ =>
    let plan_text := env.planResponse
    let planW : WriteOp := ⟨some env.folderId, "reading_plan.yaml",
      .plan ⟨"now", plan_text⟩, none⟩
    match env.planWrite with
    | .error e =>
      { replies := ["Thank you! I am generating your first reading plan..."],
        writes := [profileW, planW], outcome := .error (.storeError e) }
    | .ok _ =>
      { replies := ["Thank you! I am generating your first reading plan...",
          "Setup Complete! Here is your plan:\n\n" ++ plan_text ++ "\n\nType /read to begin."],
        writes := [profileW, planW], outcome := .ok .IDLE }

/-- The method names `GoogleDriveManager` defines (`drive_manager.py`). -/
def googleDriveManagerMethods : List String :=
  ["__init__", "_authenticate", "get_service_account_email", "list_files_in_folder",
   "read_md_file", "write_md_file", "delete_file", "get_file_id_by_name"]

/-- The method names `bot.py` invokes on its `self.drive` adapter object
(`start`, `drive_setup_handler`, `onboarding_ordering`, `read_command`,
`done_command`, `discussion_handler`). -/
def botDriveMethodCalls : List String :=
  ["get_service_account_email", "list_files_in_folder", "get_file_id_by_name",
   "read_yaml_file", "write_yaml_file", "delete_file"]

/-- The C1 counterexample's environment: the mark-done profile lookup and
read yield nothing (missing or unreadable document). -/
def cexDoneEnv : DoneEnv := ⟨some "fid", some "pid", none, .ok "pid"⟩

/-- The C2 counterexample's environment: the backend listing request fails,
yet a populated profile document is reported for the folder. -/
def cexListingEnv : SetupEnv :=
  ⟨.error "PERMISSION_DENIED: folder not readable", some "pid",
    some ⟨"English", "ESV", "Baptist", "Casual", "Daily", "Canonical", some 3⟩, .ok none⟩

/-- Concrete profile used by the C6 witness: `current_day = 8`. -/
def c6Profile : Profile := ⟨"En", "ESV", "None", "Casual", "Fast", "Canonical", some 8⟩

/-- Concrete plan used by the C6 witness: covers days 1 through 7 only. -/
def c6Plan : PlanDoc :=
  ⟨"now",
   "Day 1: Gen 1\nDay 2: Gen 2\nDay 3: Gen 3\nDay 4: Gen 4\nDay 5: Gen 5\nDay 6: Gen 6\nDay 7: Gen 7"⟩

/-- Concrete read environment used by the C6 witness. -/
def c6Env : ReadEnv :=
  ⟨some "fid", some "pid", some c6Profile, some "plid", some c6Plan,
   "Day 8: Gen 20\nDay 9: Gen 21", .ok "plid", "Gen 20", "scripture text"⟩

/-- The C8 counterexample's environment: the plan is present and covers the
day, but the reference extraction returns the empty string. -/
def c8Env : ReadEnv :=
  ⟨some "fid", some "pid", some ⟨"En", "ESV", "None", "Casual", "Fast", "Canonical", some 1⟩,
   some "plid", some ⟨"now", "Day 1: Gen 1"⟩, "unused extension", .ok "plid", "",
   "Some scripture text"⟩

theorem pyIn_lower_quota {m : String}
    (h : pyIn "service accounts do not have storage quota" m = true) :
    pyIn "quota" (pyLower m) = true := by
  rw [pyIn_eq_true_iff] at h ⊢
  have h2 : "quota".data <:+: m.data := List.IsInfix.trans (by decide) h
  have h3 := h2.map Char.toLower
  have h4 : "quota".data.map Char.toLower = "quota".data := by decide
  rw [h4] at h3
  exact h3

theorem truncate10_eq_drop (l : List Turn) : truncate10 l = l.drop (l.length - 10) := by
  by_cases h : l.length > 10
  · simp [truncate10, h]
  · have h0 : l.length - 10 = 0 := by omega
    simp [truncate10, h, h0]

theorem truncate10_length_le (l : List Turn) : (truncate10 l).length ≤ 10 := by
  by_cases h : l.length > 10
  · simp [truncate10, h]
    omega
  · simp [truncate10, h]
    omega

theorem truncate10_append_pair (l : List Turn) (u m : Turn) :
    ∃ pre, truncate10 (l ++ [u, m]) = pre ++ [u, m] := by
  have hlen : (l ++ [u, m]).length = l.length + 2 := by simp
  have hle : (l ++ [u, m]).length - 10 ≤ l.length := by omega
  refine ⟨l.drop ((l ++ [u, m]).length - 10), ?_⟩
  rw [truncate10_eq_drop, List.drop_append_of_le_length hle]

/-- C10: the session controller invokes `read_yaml_file` and
`write_yaml_file` on the document-store adapter object, but
`GoogleDriveManager` defines neither (its read/write pair is
`read_md_file`/`write_md_file`, the names the unit tests assert), so the
profile/plan/history persistence flows fail with an attribute-lookup error
before reaching the backend.  The claim that every invoked operation is
defined is false on the code. -/
theorem bot_calls_undefined_adapter_methods :
    "read_yaml_file" ∈ botDriveMethodCalls ∧
    "read_yaml_file" ∉ googleDriveManagerMethods ∧
    "write_yaml_file" ∈ botDriveMethodCalls ∧
    "write_yaml_file" ∉ googleDriveManagerMethods := by
  decide

/-- C1 counterexample: the claim says every adapter-boundary failure in the
mark-done handler is converted into a user-visible message plus a next
state, in particular a missing or unreadable profile document.  At this
concrete input the profile read yields nothing and `done_command` instead
raises (`profile['current_day']` on `None`), an exception escaping the
handler rather than a state-machine-visible outcome. -/
theorem done_missing_profile_raises_cex :
    cexDoneEnv.profileDoc = none ∧ done_command cexDoneEnv = .error .typeError :=
  ⟨rfl, rfl⟩

/-- C1 (amended): generative-provider failures never escape any handler
(the provider adapter itself converts a missing key or a raising backend
call into a fixed string), but the mark-done day-advance does not convert
document-store failures: a missing or unreadable profile document escapes
`done_command` as a `TypeError`, and a raising profile write escapes as the
store exception. -/
theorem adapter_failure_conversion_amended :
    (∀ e : String, generate_response true (.error e) =
        "I'm having trouble connecting to my knowledge base right now.") ∧
    (∀ b : Except String String, generate_response false b =
        "AI Service Unavailable (Missing API Key).") ∧
    (∀ env : DoneEnv, env.profileDoc = none → done_command env = .error .typeError) ∧
    (∀ (env : DoneEnv) (p : Profile) (e : String),
        env.profileDoc = some p → env.profileWrite = .error e →
        done_command env = .error (.storeError e)) := by
  refine ⟨fun e => rfl, fun b => rfl, fun env h => ?_, fun env p e h1 h2 => ?_⟩
  · simp [done_command, h]
  · simp [done_command, h1, h2]

/-- Witness for C1's amended theorem at a concrete input: a raising profile
write escapes `done_command` as the store exception. -/
theorem adapter_failure_conversion_amended_witness :
    done_command ⟨some "fid", some "pid",
        some ⟨"En", "ESV", "Baptist", "Casual", "Daily", "Canonical", some 3⟩,
        .error "write forbidden"⟩ = .error (.storeError "write forbidden") :=
  adapter_failure_conversion_amended.2.2.2
    ⟨some "fid", some "pid",
      some ⟨"En", "ESV", "Baptist", "Casual", "Daily", "Canonical", some 3⟩,
      .error "write forbidden"⟩
    ⟨"En", "ESV", "Baptist", "Casual", "Daily", "Canonical", some 3⟩
    "write forbidden" rfl rfl

/-- C2 counterexample: the claim says that whenever the listing attempt
fails the session stays in the store-link state with the listing error
surfaced.  At this concrete input the backend listing fails, yet the
composed handler moves to Idle with the welcome-back reply, which does not
mention the error: the adapter swallowed the failure and the folder was
treated as accessible. -/
theorem listing_failure_not_surfaced_cex :
    cexListingEnv.listBackend = .error "PERMISSION_DENIED: folder not readable" ∧
    (drive_setup_handler cexListingEnv "folder-123").next = ChatState.IDLE ∧
    (drive_setup_handler cexListingEnv "folder-123").replies = [welcomeBackMsg] ∧
    pyIn "PERMISSION_DENIED" welcomeBackMsg = false := by
  refine ⟨rfl, rfl, rfl, by decide⟩

/-- C2 (amended): `list_files_in_folder` catches every backend listing
failure and returns the empty listing, so the composed setup flow treats an
unreadable folder exactly like an accessible empty one and proceeds; the
handler's stay-and-surface branch fires only if the listing call itself
raises, which the provided adapter never does. -/
theorem listing_failure_swallowed_amended (env : SetupEnv) (e text : String) :
    drive_setup_handler { env with listBackend := .error e } text =
      drive_setup_handler { env with listBackend := .ok [] } text ∧
    drive_setup_core (.error e) env text =
      { replies := [couldNotAccessMsg e], next := .DRIVE_SETUP, savedFolder := none,
        writes := [], deletes := [] } :=
  ⟨rfl, rfl⟩

/-- C3: a write-capability probe failure whose message contains
"service accounts do not have storage quota" keeps the setup flow in the
store-link state and sends the remediation message, which names exactly
three placeholder documents (`profile.yaml`, `reading_plan.yaml`,
`chat_history.yaml`); any probe failure matching neither lowered pattern is
reported verbatim, also staying in the store-link state. -/
theorem quota_probe_remediation (env : SetupEnv) (text m : String)
    (hprof : env.profileFileId = none) (hprobe : env.probeWrite = .error m) :
    (pyIn "service accounts do not have storage quota" m = true →
      drive_setup_handler env text =
        { replies := [quotaActionMsg], next := .DRIVE_SETUP, savedFolder := some (pyStrip text),
          writes := [⟨some (pyStrip text), "bot_test_permission.yaml", .test, none⟩],
          deletes := [] } ∧
      countOcc ".yaml".data quotaActionMsg.data = 3 ∧
      pyIn "profile.yaml" quotaActionMsg = true ∧
      pyIn "reading_plan.yaml" quotaActionMsg = true ∧
      pyIn "chat_history.yaml" quotaActionMsg = true) ∧
    ((pyIn "quota" (pyLower m) || pyIn "service accounts do not have storage" (pyLower m))
        = false →
      drive_setup_handler env text =
        { replies := ["Error checking write permissions: " ++ m], next := .DRIVE_SETUP,
          savedFolder := some (pyStrip text),
          writes := [⟨some (pyStrip text), "bot_test_permission.yaml", .test, none⟩],
          deletes := [] }) := by
  constructor
  · intro h
    have hq : pyIn "quota" (pyLower m) = true := pyIn_lower_quota h
    refine ⟨?_, by decide, by decide, by decide, by decide⟩
    simp [drive_setup_handler, drive_setup_core, list_files_in_folder, hprof, hprobe, hq]
  · intro h
    simp [drive_setup_handler, drive_setup_core, list_files_in_folder, hprof, hprobe, h]

/-- Witness for C3 at a concrete input: a probe failure carrying the quota
message keeps the flow in the store-link state with the three-placeholder
remediation. -/
theorem quota_probe_remediation_witness :
    drive_setup_handler
        ⟨.ok [], none, none,
          .error "Returned 403: service accounts do not have storage quota. Use a shared drive."⟩
        "fid" =
      { replies := [quotaActionMsg], next := .DRIVE_SETUP, savedFolder := some (pyStrip "fid"),
        writes := [⟨some (pyStrip "fid"), "bot_test_permission.yaml", .test, none⟩],
        deletes := [] } ∧
    countOcc ".yaml".data quotaActionMsg.data = 3 ∧
    pyIn "profile.yaml" quotaActionMsg = true ∧
    pyIn "reading_plan.yaml" quotaActionMsg = true ∧
    pyIn "chat_history.yaml" quotaActionMsg = true :=
  (quota_probe_remediation
    ⟨.ok [], none, none,
      .error "Returned 403: service accounts do not have storage quota. Use a shared drive."⟩
    "fid" "Returned 403: service accounts do not have storage quota. Use a shared drive."
    rfl rfl).1 (by decide)

/-- C4: after every discussion turn, the cached history window is at most
10 entries long, equals the appended history with surplus entries dropped
from the head (oldest first), and ends with the user turn carrying the
input followed by the model turn carrying the generated response. -/
theorem history_window_bounded (env : DiscussEnv) (input : String) :
    (discussion_handler env input).newCache.length ≤ 10 ∧
    (discussion_handler env input).newCache =
      ((discussion_handler env input).usedHistory ++
          [(⟨"user", [input]⟩ : Turn), (⟨"model", [env.aiResponse]⟩ : Turn)]).drop
        (((discussion_handler env input).usedHistory ++
            [(⟨"user", [input]⟩ : Turn), (⟨"model", [env.aiResponse]⟩ : Turn)]).length - 10) ∧
    ∃ pre, (discussion_handler env input).newCache =
      pre ++ [(⟨"user", [input]⟩ : Turn), (⟨"model", [env.aiResponse]⟩ : Turn)] := by
  have hnew : (discussion_handler env input).newCache =
      truncate10 ((discussion_handler env input).usedHistory ++
        [(⟨"user", [input]⟩ : Turn), (⟨"model", [env.aiResponse]⟩ : Turn)]) := rfl
  refine ⟨?_, ?_, ?_⟩
  · rw [hnew]; exact truncate10_length_le _
  · rw [hnew]; exact truncate10_eq_drop _
  · rw [hnew]; exact truncate10_append_pair _ _ _

/-- C7: the history used for generation is resolved by priority (in-memory
cache, else the persisted document's entry, else empty); then exactly the
user turn and the model turn are appended before the 10-cap truncation, and
the result is persisted by read-modify-write at the already-resolved
document id (the write op carries no concurrency token). -/
theorem history_resolution_priority (env : DiscussEnv) (input : String) :
    (∀ h, env.cachedHistory = some h → (discussion_handler env input).usedHistory = h) ∧
    (∀ fid d, env.cachedHistory = none → env.chatFileId = some fid → env.chatDoc = some d →
      (discussion_handler env input).usedHistory = d.history.getD []) ∧
    (env.cachedHistory = none → env.chatFileId = none →
      (discussion_handler env input).usedHistory = []) ∧
    (∀ fid, env.cachedHistory = none → env.chatFileId = some fid → env.chatDoc = none →
      (discussion_handler env input).usedHistory = []) ∧
    (discussion_handler env input).newCache =
      truncate10 ((discussion_handler env input).usedHistory ++
        [⟨"user", [input]⟩, ⟨"model", [env.aiResponse]⟩]) ∧
    (discussion_handler env input).writeAttempt =
      ⟨env.folderId, "chat_history.yaml",
        .chat ⟨if env.chatFileId.isNone then "now" else "existing",
          some (discussion_handler env input).newCache⟩,
        env.chatFileId⟩ := by
  refine ⟨fun h hh => ?_, fun fid d h1 h2 h3 => ?_, fun h1 h2 => ?_,
    fun fid h1 h2 h3 => ?_, rfl, rfl⟩
  all_goals simp [discussion_handler, resolveHistory, *]

/-- Witness for C7 at a concrete input: no cache, a stored document with
one turn; the stored turn is the history used, and the write carries the
capped window at the resolved id. -/
theorem history_resolution_priority_witness :
    (discussion_handler
        ⟨some "fid", none, some "cid",
          some ⟨"existing", some [(⟨"user", ["old"]⟩ : Turn)]⟩, "R", .ok "cid"⟩
        "Q").usedHistory = [(⟨"user", ["old"]⟩ : Turn)] :=
  (history_resolution_priority
    ⟨some "fid", none, some "cid",
      some ⟨"existing", some [(⟨"user", ["old"]⟩ : Turn)]⟩, "R", .ok "cid"⟩
    "Q").2.1 "cid" ⟨"existing", some [(⟨"user", ["old"]⟩ : Turn)]⟩ rfl rfl rfl

/-- C5: the day-coverage step of the read flow is idempotent.  When the
plan body already contains the day label (`Day d:` or `Day d `), the flow
issues no extension request and attempts no plan write; when the label is
absent it issues exactly the extension prompt and exactly the append-only
plan upsert at the already-resolved id. -/
theorem ensure_day_covered_idempotent (env : ReadEnv) (fid pfid : String)
    (p : Profile) (pd : PlanDoc)
    (h1 : env.folderId = some fid) (h2 : env.profileFileId = some pfid)
    (h3 : env.profileDoc = some p) (h4 : env.planDoc = some pd) (h5 : pd.plan ≠ "") :
    (coversDay pd.plan (p.current_day.getD 1) = true →
      (read_command env).extensionCalls = [] ∧ (read_command env).planWrites = []) ∧
    (coversDay pd.plan (p.current_day.getD 1) = false →
      (read_command env).extensionCalls =
        [extensionPrompt (p.current_day.getD 1) (pyStrProfile p)] ∧
      (read_command env).planWrites =
        [⟨some fid, "reading_plan.yaml",
          .plan { pd with plan := pd.plan ++ "\n\n" ++ env.extensionResponse },
          env.planFileId⟩]) := by
  constructor
  · intro hc
    simp [read_command, h1, h2, h3, h4, h5, hc, read_finish]
  · intro hc
    cases hw : env.planWrite with
    | error e => simp [read_command, h1, h2, h3, h4, h5, hc, hw, read_finish]
    | ok i => simp [read_command, h1, h2, h3, h4, h5, hc, hw, read_finish]

/-- Witness for C5 at a concrete input: a plan already containing the label
for day 1 produces no extension call and no plan write. -/
theorem ensure_day_covered_idempotent_witness :
    (read_command
        ⟨some "fid", some "pid",
          some ⟨"En", "ESV", "None", "Casual", "Fast", "Canonical", some 1⟩, some "plid",
          some ⟨"now", "Day 1: Gen 1"⟩, "EXT", .ok "plid", "Gen 1", "text"⟩).extensionCalls
        = [] ∧
    (read_command
        ⟨some "fid", some "pid",
          some ⟨"En", "ESV", "None", "Casual", "Fast", "Canonical", some 1⟩, some "plid",
          some ⟨"now", "Day 1: Gen 1"⟩, "EXT", .ok "plid", "Gen 1", "text"⟩).planWrites
        = [] :=
  (ensure_day_covered_idempotent
    ⟨some "fid", some "pid",
      some ⟨"En", "ESV", "None", "Casual", "Fast", "Canonical", some 1⟩, some "plid",
      some ⟨"now", "Day 1: Gen 1"⟩, "EXT", .ok "plid", "Gen 1", "text"⟩
    "fid" "pid" ⟨"En", "ESV", "None", "Casual", "Fast", "Canonical", some 1⟩
    ⟨"now", "Day 1: Gen 1"⟩ rfl rfl rfl rfl (by decide)).1 (by decide)

theorem pyIn_day8_prompt (s : String) :
    pyIn "Day 8 to Day 14" (extensionPrompt 8 s) = true := by
  show pyIn "Day 8 to Day 14"
      ((("The user is on Day " ++ toString (8 : Nat) ++
          ". Generate a daily Bible reading plan for Day " ++ toString (8 : Nat) ++
          " to Day " ++ toString (8 + 6 : Nat) ++ ". Context/Preferences: ") ++ s) ++
        "\nFormat the output as a Markdown list with 'Day X: Book Chapter:Verse'.") = true
  apply pyIn_append_of_left
  apply pyIn_append_of_left
  decide

/-- C6: with `current_day = 8` and a plan body carrying no `Day 8` label,
the read flow issues exactly one extension request, whose prompt mentions
"Day 8 to Day 14", and the persisted plan body is the prior body plus the
separator plus the generated extension — so it contains the entire prior
text and the new text (append-only, never replacement or truncation). -/
theorem read_day8_extension_appends (env : ReadEnv) (fid pfid wid : String)
    (p : Profile) (pd : PlanDoc)
    (h1 : env.folderId = some fid) (h2 : env.profileFileId = some pfid)
    (h3 : env.profileDoc = some p) (hday : p.current_day = some 8)
    (h4 : env.planDoc = some pd) (h5 : pd.plan ≠ "")
    (hc1 : pyIn "Day 8:" pd.plan = false) (hc2 : pyIn "Day 8 " pd.plan = false)
    (hw : env.planWrite = .ok wid) :
    (read_command env).extensionCalls = [extensionPrompt 8 (pyStrProfile p)] ∧
    pyIn "Day 8 to Day 14" (extensionPrompt 8 (pyStrProfile p)) = true ∧
    (read_command env).planWrites =
      [⟨some fid, "reading_plan.yaml",
        .plan { pd with plan := pd.plan ++ "\n\n" ++ env.extensionResponse },
        env.planFileId⟩] ∧
    pyIn pd.plan (pd.plan ++ "\n\n" ++ env.extensionResponse) = true ∧
    pyIn env.extensionResponse (pd.plan ++ "\n\n" ++ env.extensionResponse) = true ∧
    (read_command env).outcome = .ok .READING := by
  have e1 : ("Day " ++ toString (8 : Nat) ++ ":") = "Day 8:" := rfl
  have e2 : ("Day " ++ toString (8 : Nat) ++ " ") = "Day 8 " := rfl
  have hcov : coversDay pd.plan 8 = false := by
    simp [coversDay, e1, e2, hc1, hc2]
  refine ⟨?_, pyIn_day8_prompt _, ?_, ?_, ?_, ?_⟩
  · simp [read_command, h1, h2, h3, hday, h4, h5, hcov, hw, read_finish]
  · simp [read_command, h1, h2, h3, hday, h4, h5, hcov, hw, read_finish]
  · exact pyIn_append_of_left _ (pyIn_left_self pd.plan "\n\n")
  · exact pyIn_right_self (pd.plan ++ "\n\n") env.extensionResponse
  · simp [read_command, h1, h2, h3, hday, h4, h5, hcov, hw, read_finish]

/-- Witness for C6 at a concrete input: profile on day 8, plan covering
days 1-7 only; the extension call and the appended persisted body follow. -/
theorem read_day8_extension_appends_witness :
    (read_command c6Env).extensionCalls = [extensionPrompt 8 (pyStrProfile c6Profile)] ∧
    pyIn "Day 8 to Day 14" (extensionPrompt 8 (pyStrProfile c6Profile)) = true ∧
    (read_command c6Env).planWrites =
      [⟨some "fid", "reading_plan.yaml",
        .plan { c6Plan with plan := c6Plan.plan ++ "\n\n" ++ c6Env.extensionResponse },
        c6Env.planFileId⟩] ∧
    pyIn c6Plan.plan (c6Plan.plan ++ "\n\n" ++ c6Env.extensionResponse) = true ∧
    pyIn c6Env.extensionResponse (c6Plan.plan ++ "\n\n" ++ c6Env.extensionResponse) = true ∧
    (read_command c6Env).outcome = .ok .READING :=
  read_day8_extension_appends c6Env "fid" "pid" "plid" c6Profile c6Plan
    rfl rfl rfl rfl rfl (by decide) (by decide) (by decide) rfl

/-- C8 counterexample: the claim says a scripture extraction yielding
nothing usable is reported as a terminal contact-support condition ending
the session.  At this concrete input the extraction returns the empty
string, yet the flow caches the empty reference, proceeds to the Reading
state, and no reply mentions contacting support: extraction output is never
validated. -/
theorem extraction_unvalidated_cex :
    c8Env.extractionResponse = "" ∧
    (read_command c8Env).outcome = .ok ChatState.READING ∧
    (read_command c8Env).savedRef = some "" ∧
    ((read_command c8Env).replies.all fun r => !(pyIn "contact support" r)) = true := by
  refine ⟨rfl, rfl, rfl, by decide⟩

/-- C8 (amended): a missing plan document or an empty plan body is reported
with the distinct contact-support message and ends the session; the
scripture-extraction result is never validated — whatever text it returns
(including the empty string), the flow proceeds to the Reading state with
that text trimmed as the cached reference. -/
theorem plan_empty_support_amended (env : ReadEnv) (fid pfid : String) (p : Profile) :
    (env.folderId = some fid → env.profileFileId = some pfid → env.profileDoc = some p →
      env.planDoc = none →
      (read_command env).replies = [planSupportMsg] ∧
      (read_command env).outcome = .ok .ENDED) ∧
    (∀ pd : PlanDoc, env.folderId = some fid → env.profileFileId = some pfid →
      env.profileDoc = some p → env.planDoc = some pd → pd.plan = "" →
      (read_command env).replies = [planSupportMsg] ∧
      (read_command env).outcome = .ok .ENDED) ∧
    (∀ pd : PlanDoc, env.folderId = some fid → env.profileFileId = some pfid →
      env.profileDoc = some p → env.planDoc = some pd → pd.plan ≠ "" →
      coversDay pd.plan (p.current_day.getD 1) = true →
      (read_command env).outcome = .ok .READING ∧
      (read_command env).savedRef = some (pyStrip env.extractionResponse)) := by
  refine ⟨fun h1 h2 h3 h4 => ?_, fun pd h1 h2 h3 h4 h5 => ?_,
    fun pd h1 h2 h3 h4 h5 h6 => ?_⟩
  · simp [read_command, h1, h2, h3, h4]
  · simp [read_command, h1, h2, h3, h4, h5]
  · simp [read_command, h1, h2, h3, h4, h5, h6, read_finish]

/-- Witness for C8's amended theorem at a concrete input: a missing plan
document yields the contact-support reply and ends the session. -/
theorem plan_empty_support_amended_witness :
    (read_command
        ⟨some "fid", some "pid",
          some ⟨"En", "ESV", "None", "Casual", "Fast", "Canonical", some 1⟩, none, none,
          "EXT", .ok "x", "ref", "text"⟩).replies = [planSupportMsg] ∧
    (read_command
        ⟨some "fid", some "pid",
          some ⟨"En", "ESV", "None", "Casual", "Fast", "Canonical", some 1⟩, none, none,
          "EXT", .ok "x", "ref", "text"⟩).outcome = .ok .ENDED :=
  (plan_empty_support_amended
    ⟨some "fid", some "pid",
      some ⟨"En", "ESV", "None", "Casual", "Fast", "Canonical", some 1⟩, none, none,
      "EXT", .ok "x", "ref", "text"⟩ "fid" "pid"
    ⟨"En", "ESV", "None", "Casual", "Fast", "Canonical", some 1⟩).1 rfl rfl rfl rfl

/-- C9: when both writes succeed and the provider returns
"Day 1: Genesis 1" for the plan-generation call, completing the final
onboarding answer persists first a profile document carrying all six
onboarding fields plus `current_day = 1`, then a plan document whose body
contains "Day 1: Genesis 1" (both created by name, no pre-resolved id), and
transitions to the Idle state. -/
theorem onboarding_completion_persists (env : OnboardEnv) (text i1 i2 : String)
    (h1 : env.profileWrite = .ok i1) (h2 : env.planWrite = .ok i2)
    (h3 : env.planResponse = "Day 1: Genesis 1") :
    (onboarding_ordering env text).writes =
      [⟨some env.folderId, "profile.yaml",
        .profile ⟨env.language, env.translation, env.denomination, env.style, env.pacing,
          text, some 1⟩, none⟩,
       ⟨some env.folderId, "reading_plan.yaml", .plan ⟨"now", "Day 1: Genesis 1"⟩, none⟩] ∧
    pyIn "Day 1: Genesis 1" (PlanDoc.mk "now" "Day 1: Genesis 1").plan = true ∧
    (onboarding_ordering env text).outcome = .ok ChatState.IDLE := by
  refine ⟨?_, by decide, ?_⟩ <;> simp [onboarding_ordering, h1, h2, h3]

/-- Witness for C9 at a concrete input. -/
theorem onboarding_completion_persists_witness :
    (onboarding_ordering
        ⟨"En", "ESV", "None", "Casual", "Fast", "fid", .ok "p1", "Day 1: Genesis 1",
          .ok "p2"⟩ "Canonical").writes =
      [⟨some "fid", "profile.yaml",
        .profile ⟨"En", "ESV", "None", "Casual", "Fast", "Canonical", some 1⟩, none⟩,
       ⟨some "fid", "reading_plan.yaml", .plan ⟨"now", "Day 1: Genesis 1"⟩, none⟩] ∧
    pyIn "Day 1: Genesis 1" (PlanDoc.mk "now" "Day 1: Genesis 1").plan = true ∧
    (onboarding_ordering
        ⟨"En", "ESV", "None", "Casual", "Fast", "fid", .ok "p1", "Day 1: Genesis 1",
          .ok "p2"⟩ "Canonical").outcome = .ok ChatState.IDLE :=
  onboarding_completion_persists
    ⟨"En", "ESV", "None", "Casual", "Fast", "fid", .ok "p1", "Day 1: Genesis 1", .ok "p2"⟩
    "Canonical" "p1" "p2" rfl rfl rfl

end BibleBot
